import Mathlib

/-!
# Verification of the games-sdk boundary trust layer

Shallow embedding of the SDK's boundary trust layer:

* the runtime value model for untrusted guest input (`JSValue`, `TSNum`),
  mirroring JavaScript runtime values as they are inspected by the SDK;
* the identity and value validators (`src/types/branded.ts`);
* the event validation engine (`src/events/event-validators.ts`);
* the fire-and-forget emission pipeline (`event-emitter.ts`);
* the session lifecycle driver (`platform/session.ts`);
* the event lifecycle gate (`platform/eventGate.ts`);
* the capability guard (`core/capability-guard.ts`).

TypeScript numbers are modelled by `TSNum`: either a finite rational or one
of the non-finite sentinels `nan`, `posInf`, `negInf`.  Exceptions are
modelled with `Except`: a TypeScript function that can throw becomes a Lean
function into `Except`; a function that never throws is total.  Console
logging is not modelled (it carries no data used by any contract).
-/

namespace GamesSdk

/-- A TypeScript runtime number: a finite (IEEE-double) value modelled as a
rational, or one of the non-finite sentinels. -/
inductive TSNum where
  | nan
  | posInf
  | negInf
  | fin (q : ℚ)
deriving DecidableEq, Repr

namespace TSNum

/-- `Number.isFinite`. -/
def isFinite : TSNum → Bool
  | fin _ => true
  | _ => false

/-- `Number.isInteger`. -/
def isInteger : TSNum → Bool
  | fin q => q.den == 1
  | _ => false

/-- The JavaScript `<` comparison on numbers: any comparison involving `NaN`
is false; infinities compare in the usual way. -/
def lt : TSNum → TSNum → Bool
  | nan, _ => false
  | _, nan => false
  | negInf, negInf => false
  | negInf, _ => true
  | _, negInf => false
  | posInf, _ => false
  | fin _, posInf => true
  | fin a, fin b => a < b

end TSNum

/-- A JavaScript runtime value as seen by the SDK boundary.  `undef` is the
`undefined` value; objects are association lists of fields (the SDK never
constructs duplicate keys); functions and symbols do not occur in guest
events and are not modelled. -/
inductive JSValue where
  | undef
  | null
  | bool (b : Bool)
  | num (n : TSNum)
  | str (s : String)
  | arr (elems : List JSValue)
  | obj (fields : List (String × JSValue))
deriving Repr

namespace JSValue

/-- `typeof v === 'object'` (true for `null`, arrays and objects). -/
def typeofObject : JSValue → Bool
  | null => true
  | arr _ => true
  | obj _ => true
  | _ => false

/-- Field access `v[key]` on an object, defaulting to `undefined` for a
missing field.  On arrays the named fields used by the SDK are absent, so
access yields `undefined`.  Only valid on values where member access does
not throw (see `getMember` for the throwing form). -/
def getField : JSValue → String → JSValue
  | obj fields, key =>
    match fields.lookup key with
    | some v => v
    | none => undef
  | _, _ => undef

/-- The `in` operator: `key in v` for an object `v` (field presence, even
when the stored value is `undefined`). -/
def hasField : JSValue → String → Bool
  | obj fields, key => fields.any (fun p => p.1 == key)
  | _, _ => false

/-- JavaScript member access `v.key`, which throws a `TypeError` on `null`
and `undefined` and boxes (without throwing) on other primitives. -/
def getMember : JSValue → String → Except Unit JSValue
  | undef, _ => .error ()
  | null, _ => .error ()
  | v, key => .ok (getField v key)

/-- The fields of an object value; values of other shapes never reach the
per-kind validators (the dispatcher requires an object with a string
discriminant first). -/
def objFields : JSValue → List (String × JSValue)
  | obj fields => fields
  | _ => []

/-- Replace the value stored at `key` (first occurrence), or append the
field: the semantics of `cleaned[key] = v` on the spread copy. -/
def setField (fields : List (String × JSValue)) (key : String) (v : JSValue) :
    List (String × JSValue) :=
  match fields with
  | [] => [(key, v)]
  | (k, w) :: rest =>
    if k == key then (k, v) :: rest else (k, w) :: setField rest key v

/-- Remove a field: the semantics of `delete cleaned[key]`. -/
def deleteField (fields : List (String × JSValue)) (key : String) :
    List (String × JSValue) :=
  fields.filter (fun p => p.1 ≠ key)

end JSValue

/-! ## Serialized size (`estimateSize`)

The source measures `new TextEncoder().encode(JSON.stringify(value)).length`.
We compute the byte count of the JSON text directly.  String characters are
counted with their JSON escapes and UTF-8 width.  Finite numbers are counted
with `numReprLen`, which is exact for integers (the only numbers appearing in
size-sensitive statements below); for non-integers it uses the exact decimal
expansion when one exists, which approximates the shortest-round-trip
formatting JavaScript prints. -/

/-- Byte length of the decimal representation of an integer (including a
leading minus sign for negatives). -/
def intReprLen (n : ℤ) : Nat :=
  (toString n).length

/-- Smallest `k ≤ 40` such that `q * 10^k` is an integer, if any. -/
def decimalDigits (q : ℚ) : Option Nat :=
  (List.range 41).find? (fun k => (q * (10 ^ k : ℚ)).den == 1)

/-- Byte length of the JSON representation of a finite number. -/
def numReprLen (q : ℚ) : Nat :=
  if q.den = 1 then intReprLen q.num
  else
    match decimalDigits q with
    | some k => intReprLen (q * (10 ^ k : ℚ)).num + 1
    | none => intReprLen q.num + 18

/-- Byte length of one string character inside a JSON string literal:
`"` and `\` escape to two bytes; control characters use the two-byte
escapes where JSON defines them and `\uXXXX` otherwise; all other
characters contribute their UTF-8 width. -/
def jsonCharLen (c : Char) : Nat :=
  if c = '"' ∨ c = '\\' then 2
  else if c.toNat < 0x20 then
    if c.toNat = 0x08 ∨ c.toNat = 0x09 ∨ c.toNat = 0x0a ∨ c.toNat = 0x0c ∨ c.toNat = 0x0d
    then 2 else 6
  else c.utf8Size

/-- Byte length of a JSON string literal (quotes included). -/
def jsonStringLen (s : String) : Nat :=
  2 + (s.data.map jsonCharLen).sum

mutual

/-- Byte length of `JSON.stringify(v)` encoded as UTF-8.  `undefined` at the
top level stringifies to no JSON text (the subsequent encode sees the empty
default), inside arrays it becomes `null`, and inside objects the field is
skipped.  Non-finite numbers stringify to `null`. -/
def jsonSize : JSValue → Nat
  | .undef => 0
  | .null => 4
  | .bool true => 4
  | .bool false => 5
  | .num (.fin q) => numReprLen q
  | .num _ => 4
  | .str s => jsonStringLen s
  | .arr elems => 2 + jsonSizeArr elems
  | .obj fields => 2 + jsonSizeObj fields

/-- Byte length of the comma-separated element list of a JSON array
(`undefined` elements print as `null`). -/
def jsonSizeArr : List JSValue → Nat
  | [] => 0
  | [v] => (match v with | .undef => 4 | _ => jsonSize v)
  | v :: rest => (match v with | .undef => 4 | _ => jsonSize v) + 1 + jsonSizeArr rest

/-- Byte length of the comma-separated member list of a JSON object
(fields holding `undefined` are skipped). -/
def jsonSizeObj : List (String × JSValue) → Nat
  | [] => 0
  | (k, v) :: rest =>
    match v with
    | .undef => jsonSizeObj rest
    | _ =>
      let entry := jsonStringLen k + 1 + jsonSize v
      match jsonSizeObj rest with
      | 0 => entry
      | n => entry + 1 + n

end

/-- `estimateSize` from `event-validators.ts`.  In the source a
serialization failure is caught and reported as `MAX_EVENT_SIZE + 1`;
within this value model serialization is total (no circular structures or
BigInts are representable), so the catch branch is unreachable. -/
def estimateSize (v : JSValue) : Nat := jsonSize v

/-! ## Identity and value validators (`src/types/branded.ts`) -/

/-- `isValidSessionId`: a non-empty string. -/
def isValidSessionId : JSValue → Bool
  | .str s => s.length > 0
  | _ => false

/-- `isValidLevelId`: a non-empty string. -/
def isValidLevelId : JSValue → Bool
  | .str s => s.length > 0
  | _ => false

/-- `isValidDifficulty`: an integer number between 1 and 10. -/
def isValidDifficulty : JSValue → Bool
  | .num (.fin q) => q.den == 1 && 1 ≤ q && q ≤ 10
  | _ => false

/-- `isValidDuration`: a non-negative integer number. -/
def isValidDuration : JSValue → Bool
  | .num (.fin q) => q.den == 1 && 0 ≤ q
  | _ => false

/-! ## Event validation engine (`src/events/event-validators.ts`) -/

/-- Validation mode. -/
inductive ValidationMode where
  | production
  | development
deriving DecidableEq, Repr

/-- Result of event validation.  The source omits the `event` key on
rejection; this is the `none` case. -/
structure ValidationResult where
  valid : Bool
  event : Option JSValue := none
  errors : List String
  warnings : List String
deriving Repr

/-- Maximum size of a state blob in bytes (~1MB). -/
def MAX_STATE_BLOB_SIZE : Nat := 1024 * 1024

/-- Maximum size of any single event in bytes (~64KB). -/
def MAX_EVENT_SIZE : Nat := 64 * 1024

/-- The data of `UnknownEventTypeError`, thrown in development mode for
unrecognized discriminant tags. -/
structure UnknownEventTypeError where
  eventType : String
deriving DecidableEq, Repr

/-- `String(x)` on the clamped number in a warning message.  Exact for
integers; every clamp that records a warning clamps to an integer bound
(0 or 1), so only the integer case is reachable from the validators. -/
def tsNumToString (q : ℚ) : String :=
  if q.den = 1 then toString q.num else toString q.num ++ "/" ++ toString q.den

/-- `clampOptional(value, min, max)`: clamps a finite number into
`[lo, hi]`, reporting whether clamping changed it; `none` when the value is
not a finite number. -/
def clampOptional (value : JSValue) (lo hi : ℚ) : Option (ℚ × Bool) :=
  match value with
  | .num (.fin q) =>
    let c := max lo (min hi q)
    some (c, c ≠ q)
  | _ => none

/-- `clampNonNegative(value)`: floor at 0; `none` when the value is not a
finite number. -/
def clampNonNegative (value : JSValue) : Option (ℚ × Bool) :=
  match value with
  | .num (.fin q) =>
    let c := max 0 q
    some (c, c ≠ q)
  | _ => none

/-- Checks an enumerated-string field: `validValues.includes(v as string)`
(a non-string value never equals any member, so `includes` is false). -/
def includesStr (valid : List String) : JSValue → Bool
  | .str s => valid.contains s
  | _ => false

def validateSessionStarted (event : JSValue) (_mode : ValidationMode) : ValidationResult :=
  let errors :=
    if isValidSessionId (event.getField "sessionId") then []
    else ["sessionId must be a non-empty string"]
  if errors.length > 0 then ⟨false, none, errors, []⟩
  else ⟨true, some event, [], []⟩

def validateSessionEnded (event : JSValue) (_mode : ValidationMode) : ValidationResult :=
  let errors :=
    (if isValidSessionId (event.getField "sessionId") then []
     else ["sessionId must be a non-empty string"]) ++
    (if includesStr ["completed", "user_exit", "timeout"] (event.getField "reason") then []
     else ["reason must be one of: completed, user_exit, timeout"]) ++
    (if isValidDuration (event.getField "totalDurationMs") then []
     else ["totalDurationMs must be a non-negative integer"])
  if errors.length > 0 then ⟨false, none, errors, []⟩
  else ⟨true, some event, [], []⟩

def validateSessionAborted (event : JSValue) (_mode : ValidationMode) : ValidationResult :=
  let errors :=
    (if isValidSessionId (event.getField "sessionId") then []
     else ["sessionId must be a non-empty string"]) ++
    (if includesStr ["crash", "force_close", "platform_termination", "network_error"]
        (event.getField "reason") then []
     else ["reason must be one of: crash, force_close, platform_termination, network_error"]) ++
    (if isValidDuration (event.getField "durationBeforeAbortMs") then []
     else ["durationBeforeAbortMs must be a non-negative integer"])
  if errors.length > 0 then ⟨false, none, errors, []⟩
  else ⟨true, some event, [], []⟩

/-- `typeof v === 'number' && !(v < 1)` — the attempt-number check
(`typeof e['attemptNumber'] !== 'number' || e['attemptNumber'] < 1`
rejects). -/
def attemptNumberOk : JSValue → Bool
  | .num n => !(TSNum.lt n (.fin 1))
  | _ => false

def validateLevelStarted (event : JSValue) (_mode : ValidationMode) : ValidationResult :=
  let errors :=
    (if isValidLevelId (event.getField "levelId") then []
     else ["levelId must be a non-empty string"]) ++
    (if attemptNumberOk (event.getField "attemptNumber") then []
     else ["attemptNumber must be a positive integer"]) ++
    (if isValidDifficulty (event.getField "difficulty") then []
     else ["difficulty must be an integer between 1 and 10"])
  if errors.length > 0 then ⟨false, none, errors, []⟩
  else ⟨true, some event, [], []⟩

def validateLevelCompleted (event : JSValue) (_mode : ValidationMode) : ValidationResult :=
  let errors :=
    (if isValidLevelId (event.getField "levelId") then []
     else ["levelId must be a non-empty string"]) ++
    (if attemptNumberOk (event.getField "attemptNumber") then []
     else ["attemptNumber must be a positive integer"]) ++
    (if isValidDuration (event.getField "durationMs") then []
     else ["durationMs must be a non-negative integer"]) ++
    (if isValidDifficulty (event.getField "difficulty") then []
     else ["difficulty must be an integer between 1 and 10"])
  if errors.length > 0 then ⟨false, none, errors, []⟩
  else ⟨true, some event, [], []⟩

def validateLevelFailed (event : JSValue) (_mode : ValidationMode) : ValidationResult :=
  let errors :=
    (if isValidLevelId (event.getField "levelId") then []
     else ["levelId must be a non-empty string"]) ++
    (if attemptNumberOk (event.getField "attemptNumber") then []
     else ["attemptNumber must be a positive integer"]) ++
    (if isValidDuration (event.getField "durationMs") then []
     else ["durationMs must be a non-negative integer"]) ++
    (if isValidDifficulty (event.getField "difficulty") then []
     else ["difficulty must be an integer between 1 and 10"]) ++
    (match event.getField "failureReason" with
     | .undef => []
     | v =>
       if includesStr ["timeout", "too_many_errors", "user_quit", "other"] v then []
       else ["failureReason must be one of: timeout, too_many_errors, user_quit, other"])
  if errors.length > 0 then ⟨false, none, errors, []⟩
  else ⟨true, some event, [], []⟩

def validateCheckpointReached (event : JSValue) (_mode : ValidationMode) : ValidationResult :=
  let errors :=
    (if isValidLevelId (event.getField "levelId") then []
     else ["levelId must be a non-empty string"]) ++
    (match event.getField "checkpointId" with
     | .str s => if s.length = 0 then ["checkpointId must be a non-empty string"] else []
     | _ => ["checkpointId must be a non-empty string"]) ++
    (if isValidDuration (event.getField "elapsedMs") then []
     else ["elapsedMs must be a non-negative integer"])
  if errors.length > 0 then ⟨false, none, errors, []⟩
  else ⟨true, some event, [], []⟩

/-- One `PERFORMANCE_REPORTED` analytics field clamped into `[0, 1]` with a
warning when clamping changed the value (the source repeats this block
inline for `accuracy` and `successRate`). -/
def clampField01 (event : JSValue) (name : String)
    (st : List String × List String × List (String × JSValue)) :
    List String × List String × List (String × JSValue) :=
  let (errors, warnings, cleaned) := st
  match event.getField name with
  | .undef => (errors, warnings, cleaned)
  | v =>
    match clampOptional v 0 1 with
    | none => (errors ++ [name ++ " must be a number"], warnings, cleaned)
    | some (c, wasClamped) =>
      let cleaned := JSValue.setField cleaned name (.num (.fin c))
      let warnings :=
        if wasClamped then warnings ++ [name ++ " clamped to " ++ tsNumToString c]
        else warnings
      (errors, warnings, cleaned)

/-- One `PERFORMANCE_REPORTED` analytics field floored at 0; the source
repeats this block inline for `reactionTimeMs`, `errorCount`, `hintsUsed`
and `streakLength`, and records no warning when clamping. -/
def clampFieldNonNeg (event : JSValue) (name : String)
    (st : List String × List String × List (String × JSValue)) :
    List String × List String × List (String × JSValue) :=
  let (errors, warnings, cleaned) := st
  match event.getField name with
  | .undef => (errors, warnings, cleaned)
  | v =>
    match clampNonNegative v with
    | none => (errors ++ [name ++ " must be a number"], warnings, cleaned)
    | some (c, _) =>
      let cleaned := JSValue.setField cleaned name (.num (.fin c))
      (errors, warnings, cleaned)

def validatePerformanceReported (event : JSValue) (_mode : ValidationMode) : ValidationResult :=
  let st0 := (([] : List String), ([] : List String), event.objFields)
  let st1 := clampField01 event "accuracy" st0
  let st2 := clampField01 event "successRate" st1
  let st3 := clampFieldNonNeg event "reactionTimeMs" st2
  let st4 := clampFieldNonNeg event "errorCount" st3
  let st5 := clampFieldNonNeg event "hintsUsed" st4
  let st6 := clampFieldNonNeg event "streakLength" st5
  let (errors, warnings, cleaned) := st6
  if errors.length > 0 then ⟨false, none, errors, warnings⟩
  else ⟨true, some (.obj cleaned), [], warnings⟩

def validateActiveTimeReported (event : JSValue) (_mode : ValidationMode) : ValidationResult :=
  let errors :=
    (if isValidDuration (event.getField "activeDurationMs") then []
     else ["activeDurationMs must be a non-negative integer"]) ++
    (match event.getField "idleDurationMs" with
     | .undef => []
     | v => if isValidDuration v then []
            else ["idleDurationMs must be a non-negative integer"]) ++
    (match event.getField "pausesCount" with
     | .undef => []
     | .num n => if TSNum.lt n (.fin 0) then ["pausesCount must be a non-negative number"] else []
     | _ => ["pausesCount must be a non-negative number"])
  if errors.length > 0 then ⟨false, none, errors, []⟩
  else ⟨true, some event, [], []⟩

def validateFrictionReported (event : JSValue) (_mode : ValidationMode) : ValidationResult :=
  let errors :=
    (if isValidDifficulty (event.getField "claimedDifficulty") then []
     else ["claimedDifficulty must be an integer between 1 and 10"]) ++
    (if includesStr ["memory", "focus", "speed", "regulation", "planning", "mixed"]
        (event.getField "cognitiveLoadType") then []
     else ["cognitiveLoadType must be one of: memory, focus, speed, regulation, planning, mixed"])
  if errors.length > 0 then ⟨false, none, errors, []⟩
  else ⟨true, some event, [], []⟩

def validateErrorMade (event : JSValue) (_mode : ValidationMode) : ValidationResult :=
  let errors :=
    if includesStr ["wrong_input", "timeout", "rule_violation", "missed_target",
        "wrong_selection", "sequence_break"] (event.getField "errorType") then []
    else ["errorType must be one of: wrong_input, timeout, rule_violation, missed_target, wrong_selection, sequence_break"]
  if errors.length > 0 then ⟨false, none, errors, []⟩
  else ⟨true, some event, [], []⟩

def validateFailureOccurred (event : JSValue) (_mode : ValidationMode) : ValidationResult :=
  let errors :=
    if includesStr ["error_threshold", "time_expired", "resource_depleted", "invalid_state"]
        (event.getField "failureType") then []
    else ["failureType must be one of: error_threshold, time_expired, resource_depleted, invalid_state"]
  if errors.length > 0 then ⟨false, none, errors, []⟩
  else ⟨true, some event, [], []⟩

/-- `typeof v === 'number' && !(v < 1)` — the schema-version check
(`typeof e['schemaVersion'] !== 'number' || e['schemaVersion'] < 1`
rejects). -/
def schemaVersionOk : JSValue → Bool
  | .num n => !(TSNum.lt n (.fin 1))
  | _ => false

def validateSaveGameState (event : JSValue) (_mode : ValidationMode) : ValidationResult :=
  let errors :=
    (if event.hasField "stateBlob" then
       let blobSize := estimateSize (event.getField "stateBlob")
       if blobSize > MAX_STATE_BLOB_SIZE then
         ["stateBlob exceeds size limit (" ++ toString blobSize ++ " > " ++
          toString MAX_STATE_BLOB_SIZE ++ ")"]
       else []
     else ["stateBlob is required"]) ++
    (if schemaVersionOk (event.getField "schemaVersion") then []
     else ["schemaVersion must be a positive integer"])
  if errors.length > 0 then ⟨false, none, errors, []⟩
  else ⟨true, some event, [], []⟩

def validateUserSignal (event : JSValue) (_mode : ValidationMode) : ValidationResult :=
  let errors :=
    if includesStr ["felt_easy", "felt_hard", "felt_stressed", "felt_calm",
        "wants_more", "wants_stop", "enjoying", "frustrated"]
        (event.getField "signalType") then []
    else ["signalType must be one of: felt_easy, felt_hard, felt_stressed, felt_calm, wants_more, wants_stop, enjoying, frustrated"]
  let cleaned := event.objFields
  let (warnings, cleaned) :=
    match event.getField "value" with
    | .undef => (([] : List String), cleaned)
    | v =>
      match clampOptional v 0 1 with
      | none =>
        (["value was not a valid number, omitted"], JSValue.deleteField cleaned "value")
      | some (c, wasClamped) =>
        let cleaned := JSValue.setField cleaned "value" (.num (.fin c))
        (if wasClamped then ["value clamped to " ++ tsNumToString c] else [], cleaned)
  if errors.length > 0 then ⟨false, none, errors, warnings⟩
  else ⟨true, some (.obj cleaned), [], warnings⟩

def validateDevLog (event : JSValue) (_mode : ValidationMode) : ValidationResult :=
  let errors :=
    (match event.getField "message" with
     | .str _ => []
     | _ => ["message must be a string"]) ++
    (match event.getField "level" with
     | .undef => []
     | v =>
       if includesStr ["debug", "info", "warn", "error"] v then []
       else ["level must be one of: debug, info, warn, error"])
  if errors.length > 0 then ⟨false, none, errors, []⟩
  else ⟨true, some event, [], []⟩

/-- A `PERFORMANCE_REPORTED` event holding one analytics field. -/
def perfEvt (name : String) (v : JSValue) : JSValue :=
  .obj [("type", .str "PERFORMANCE_REPORTED"), (name, v)]

/-- A `USER_SIGNAL` event with a valid signal type and the given value. -/
def sigEvt (v : JSValue) : JSValue :=
  .obj [("type", .str "USER_SIGNAL"), ("signalType", .str "felt_easy"), ("value", v)]

/-- A `USER_SIGNAL` event with a valid signal type and no value field. -/
def sigEvtNoValue : JSValue :=
  .obj [("type", .str "USER_SIGNAL"), ("signalType", .str "felt_easy")]

/-- A balanced nested-array value of depth `k`: serialized size
`7 * 2^k - 3` bytes, giving a compact witness for size-ceiling tests. -/
def blowup : Nat → JSValue
  | 0 => .null
  | k + 1 => .arr [blowup k, blowup k]

/-- A structurally valid `SAVE_GAME_STATE` event whose blob serializes to
about 112KB: under the 1MB blob ceiling, over the 64KB event ceiling. -/
def bigSaveEvt : JSValue :=
  .obj [("type", .str "SAVE_GAME_STATE"), ("stateBlob", blowup 14),
        ("schemaVersion", .num (.fin 1))]

/-- The closed set of recognized discriminant tags. -/
def knownEventTypes : List String :=
  ["SESSION_STARTED", "SESSION_ENDED", "SESSION_ABORTED", "LEVEL_STARTED",
   "LEVEL_COMPLETED", "LEVEL_FAILED", "CHECKPOINT_REACHED", "PERFORMANCE_REPORTED",
   "ACTIVE_TIME_REPORTED", "FRICTION_REPORTED", "ERROR_MADE", "FAILURE_OCCURRED",
   "SAVE_GAME_STATE", "USER_SIGNAL", "DEV_LOG"]

/-- `validateEvent(event, mode)`: the main validator.  The `Except` layer
models the one deliberate throw: `UnknownEventTypeError` in development mode
for an unrecognized tag.  The per-kind validators are total (they never
throw), so every recognized tag, and every structurally rejected input,
yields `.ok`. -/
def validateEvent (event : JSValue) (mode : ValidationMode) :
    Except UnknownEventTypeError ValidationResult :=
  -- Basic shape check: `typeof event !== 'object' || event === null`
  if !event.typeofObject || (event matches .null) then
    .ok ⟨false, none, ["Event must be an object"], []⟩
  else
    -- Type field check: `!('type' in event) || typeof event['type'] !== 'string'`
    -- (a missing field and a field holding `undefined` both read as `undef`).
    match event.getField "type" with
    | .str eventType =>
      -- Size check
      let eventSize := estimateSize event
      if eventSize > MAX_EVENT_SIZE then
        .ok ⟨false, none,
          ["Event exceeds size limit (" ++ toString eventSize ++ " > " ++
           toString MAX_EVENT_SIZE ++ ")"], []⟩
      else
        -- Dispatch to specific validators
        if eventType = "SESSION_STARTED" then .ok (validateSessionStarted event mode)
        else if eventType = "SESSION_ENDED" then .ok (validateSessionEnded event mode)
        else if eventType = "SESSION_ABORTED" then .ok (validateSessionAborted event mode)
        else if eventType = "LEVEL_STARTED" then .ok (validateLevelStarted event mode)
        else if eventType = "LEVEL_COMPLETED" then .ok (validateLevelCompleted event mode)
        else if eventType = "LEVEL_FAILED" then .ok (validateLevelFailed event mode)
        else if eventType = "CHECKPOINT_REACHED" then .ok (validateCheckpointReached event mode)
        else if eventType = "PERFORMANCE_REPORTED" then .ok (validatePerformanceReported event mode)
        else if eventType = "ACTIVE_TIME_REPORTED" then .ok (validateActiveTimeReported event mode)
        else if eventType = "FRICTION_REPORTED" then .ok (validateFrictionReported event mode)
        else if eventType = "ERROR_MADE" then .ok (validateErrorMade event mode)
        else if eventType = "FAILURE_OCCURRED" then .ok (validateFailureOccurred event mode)
        else if eventType = "SAVE_GAME_STATE" then .ok (validateSaveGameState event mode)
        else if eventType = "USER_SIGNAL" then .ok (validateUserSignal event mode)
        else if eventType = "DEV_LOG" then .ok (validateDevLog event mode)
        else if mode = .development then .error ⟨eventType⟩
        else .ok ⟨false, none, ["Unknown event type: " ++ eventType], []⟩
    | _ =>
      .ok ⟨false, none, ["Event must have a string type field"], []⟩

/-! ## Event emission pipeline (`events/event-emitter.ts`)

`Date.now()` is modelled by a `now : Nat` argument to `emit` (the source
reads the clock in `checkRateLimit` and again in `createTimestamp`; both
reads are modelled as the same instant).  The `getSessionId` getter is
modelled by its value at the time of the call.  A handler is a function
that may throw (`Except`); `emit` applies every handler and collects each
result, mirroring the per-handler try/catch. -/

/-- Maximum events per second before rate limiting. -/
def MAX_EVENTS_PER_SECOND : Nat := 50

/-- Time window for rate limiting (ms). -/
def RATE_LIMIT_WINDOW_MS : Nat := 1000

/-- A JavaScript exception thrown by code outside the SDK (a handler) or by
the runtime itself (`TypeError` on member access through `null` or
`undefined`). -/
inductive JsError where
  | typeError
  | thrown (msg : String)
deriving DecidableEq, Repr

/-- An event after SDK processing, with SDK-injected metadata. -/
structure EmittedEvent where
  event : JSValue
  timestamp : Nat
  sessionId : Option String := none
  gameId : String
  sdkVersion : String

/-- Configuration of one emitter instance. -/
structure EmitterConfig where
  gameId : String
  sdkVersion : String
  sessionId : Option String
  mode : ValidationMode
  handlers : List (EmittedEvent → Except JsError Unit)

/-- The mutable state owned by one emitter instance. -/
structure EmitterState where
  eventCount : Nat
  droppedCount : Nat
  rateLimitWindowStart : Nat
  eventsInWindow : Nat
deriving DecidableEq, Repr

/-- The state of a freshly created emitter (`createEventEmitter` runs
`Date.now()` once for the initial window start). -/
def initEmitterState (now : Nat) : EmitterState :=
  ⟨0, 0, now, 0⟩

/-- `checkRateLimit()`: reset the window if expired, then admit (consuming a
slot) or refuse.  `now - start` on `Nat` agrees with the source also when
the clock runs backwards: a negative difference never reaches the window
length. -/
def checkRateLimit (st : EmitterState) (now : Nat) : Bool × EmitterState :=
  let st :=
    if now - st.rateLimitWindowStart ≥ RATE_LIMIT_WINDOW_MS then
      { st with rateLimitWindowStart := now, eventsInWindow := 0 }
    else st
  if st.eventsInWindow ≥ MAX_EVENTS_PER_SECOND then (false, st)
  else (true, { st with eventsInWindow := st.eventsInWindow + 1 })

/-- How one `emit(event)` call returned, one constructor per return path of
the source.  `threw` is an exception escaping `emit` itself;
`rateLimitedThrew` is the development-mode `console.warn` template (which
reads `event.type`) throwing inside the rate-limited branch. -/
inductive EmitOutcome where
  | rateLimited
  | rateLimitedThrew (e : JsError)
  | threw (e : JsError)
  | devLogSkipped
  | validationThrewCaught
  | invalid
  | delivered (handlerResults : List (Except JsError Unit))

namespace EmitOutcome

/-- The call consumed a rate-limit slot (every return path except the two
rate-limited ones). -/
def admitted : EmitOutcome → Bool
  | rateLimited => false
  | rateLimitedThrew _ => false
  | _ => true

end EmitOutcome

/-- `emit(event)` from `createEventEmitter`: rate limit, production-mode
DEV_LOG discard, validation under try/catch, enrichment, and per-handler
fan-out with individual try/catch.  The only unguarded operations are the
two `event.type` member accesses (in the rate-limit warning template and in
the production DEV_LOG check), modelled by `getMember`. -/
def emit (cfg : EmitterConfig) (st : EmitterState) (now : Nat) (event : JSValue) :
    EmitOutcome × EmitterState :=
  -- Rate limit check
  let (allowed, st) := checkRateLimit st now
  if !allowed then
    let st := { st with droppedCount := st.droppedCount + 1 }
    if cfg.mode = .development then
      -- console.warn(`[SDK] Event rate limited: ${event.type}. ...`)
      match event.getMember "type" with
      | .error _ => (.rateLimitedThrew .typeError, st)
      | .ok _ => (.rateLimited, st)
    else (.rateLimited, st)
  else
    -- Skip DEV_LOG in production entirely: `mode === 'production' && event.type === 'DEV_LOG'`
    let devLogCheck : Except JsError Bool :=
      if cfg.mode = .production then
        match event.getMember "type" with
        | .error _ => .error .typeError
        | .ok t => .ok (t matches .str "DEV_LOG")
      else .ok false
    match devLogCheck with
    | .error e => (.threw e, st)
    | .ok true => (.devLogSkipped, st)
    | .ok false =>
      -- Validate - must never throw to honor the emit() contract
      match validateEvent event cfg.mode with
      | .error _ =>
        (.validationThrewCaught, { st with droppedCount := st.droppedCount + 1 })
      | .ok result =>
        if !result.valid then
          (.invalid, { st with droppedCount := st.droppedCount + 1 })
        else
          -- Create enriched event
          let emittedEvent : EmittedEvent :=
            { event := result.event.getD event
              timestamp := now
              sessionId := cfg.sessionId
              gameId := cfg.gameId
              sdkVersion := cfg.sdkVersion }
          -- Deliver to handlers; each handler is wrapped in its own
          -- try/catch, so every handler runs and errors are contained.
          let results := cfg.handlers.map (fun handler => handler emittedEvent)
          (.delivered results, { st with eventCount := st.eventCount + 1 })

/-- A sequence of `emit` calls, each with its clock reading. -/
def runEmits (cfg : EmitterConfig) (st : EmitterState) :
    List (Nat × JSValue) → List EmitOutcome × EmitterState
  | [] => ([], st)
  | (now, event) :: rest =>
    let (outcome, st) := emit cfg st now event
    let (outcomes, st) := runEmits cfg st rest
    (outcome :: outcomes, st)

/-- The number of calls in a run that were admitted past the rate
limiter. -/
def countAdmitted (outs : List EmitOutcome) : Nat :=
  (outs.filter EmitOutcome.admitted).length

/-- A well-formed development diagnostic event. -/
def devLogEvt : JSValue :=
  .obj [("type", .str "DEV_LOG"), ("message", .str "m")]

/-- A burst of 100 emits: 50 at the end of one limiter window (t = 999) and
50 immediately after the reset (t = 1000). -/
def burstTrace : List (Nat × JSValue) :=
  List.replicate 50 ((999 : Nat), devLogEvt) ++ List.replicate 50 ((1000 : Nat), devLogEvt)

/-! ## Session lifecycle driver (`platform/session.ts`)

The static configuration carried through every snapshot (metadata,
accessibility preferences, theme, org config, progression, saved state) is
constant pass-through and is omitted from the snapshot model; the snapshot
keeps the fields the lifecycle logic reads and writes.  The injected clock
`nowMs` is modelled by a `now` argument on each transition. -/

/-- The three lifecycle states. -/
inductive LifecycleState where
  | INITIAL
  | IN_SESSION
  | ENDED
deriving DecidableEq, Repr

/-- An immutable context snapshot, one shape per state. -/
inductive Ctx where
  | initial
  | inSession (sessionId : String) (startTime : Nat)
  | ended (sessionId : String) (sessionDurationMs : Nat)
deriving DecidableEq, Repr

namespace Ctx

/-- The discriminant of a snapshot. -/
def state : Ctx → LifecycleState
  | initial => .INITIAL
  | inSession _ _ => .IN_SESSION
  | ended _ _ => .ENDED

end Ctx

/-- The mutable state owned by one session driver instance. -/
structure DriverState where
  currentState : LifecycleState
  sessionId : Option String
  startTime : Option Nat
  sessionDurationMs : Option Nat
deriving DecidableEq, Repr

/-- The state of a freshly created driver. -/
def initDriverState : DriverState :=
  ⟨.INITIAL, none, none, none⟩

/-- `createContextSnapshot()`: the internal-invariant errors (`IN_SESSION`
without a session id, `ENDED` without session data) are the `.error`
cases. -/
def createContextSnapshot (st : DriverState) : Except String Ctx :=
  match st.currentState with
  | .INITIAL => .ok .initial
  | .IN_SESSION =>
    match st.sessionId, st.startTime with
    | some sid, some t0 => .ok (.inSession sid t0)
    | _, _ => .error "Invalid state: IN_SESSION without sessionId"
  | .ENDED =>
    match st.sessionId, st.sessionDurationMs with
    | some sid, some d => .ok (.ended sid d)
    | _, _ => .error "Invalid state: ENDED without session data"

/-- `startSession(sid)`: legal only from `INITIAL`; throws otherwise.  On
success it returns the new state and the snapshot broadcast to every
subscribed listener (a listener that throws is caught and ignored, so the
broadcast itself is total). -/
def startSession (st : DriverState) (sid : String) (now : Nat) :
    Except String (DriverState × Ctx) := do
  if st.currentState ≠ .INITIAL then
    .error "Cannot start session: already started"
  else
    let st : DriverState :=
      { st with sessionId := some sid, startTime := some now,
                currentState := .IN_SESSION }
    let ctx ← createContextSnapshot st
    .ok (st, ctx)

/-- `endSession(reason)`: legal only from `IN_SESSION`; the reason is not
stored.  `nowMs() - (startTime ?? 0)` is the `Nat` subtraction. -/
def endSession (st : DriverState) (now : Nat) :
    Except String (DriverState × Ctx) := do
  if st.currentState ≠ .IN_SESSION then
    .error "Cannot end session: not in session"
  else
    let st : DriverState :=
      { st with sessionDurationMs := some (now - st.startTime.getD 0),
                currentState := .ENDED }
    let ctx ← createContextSnapshot st
    .ok (st, ctx)

/-- `abortSession(reason)`: same transition as `endSession` (the
distinguishing reason is accepted but not stored). -/
def abortSession (st : DriverState) (now : Nat) :
    Except String (DriverState × Ctx) :=
  if st.currentState ≠ .IN_SESSION then
    .error "Cannot abort session: not in session"
  else
    endSession st now

/-- `isSessionActive()`. -/
def isSessionActive (st : DriverState) : Bool :=
  st.currentState = .IN_SESSION

/-- One platform call into the driver's transition surface. -/
inductive DriverOp where
  | start (sid : String) (now : Nat)
  | stop (now : Nat)
  | abort (now : Nat)

/-- One platform call: a call that throws notifies nobody and leaves the
driver usable (the throw propagates to the platform caller, not into the
driver state). -/
def driverStep (st : DriverState) : DriverOp → DriverState × List Ctx
  | .start sid now =>
    match startSession st sid now with
    | .ok (st', ctx) => (st', [ctx])
    | .error _ => (st, [])
  | .stop now =>
    match endSession st now with
    | .ok (st', ctx) => (st', [ctx])
    | .error _ => (st, [])
  | .abort now =>
    match abortSession st now with
    | .ok (st', ctx) => (st', [ctx])
    | .error _ => (st, [])

/-- Run a sequence of platform calls against one driver instance,
collecting every snapshot broadcast to subscribers. -/
def runDriver (st : DriverState) : List DriverOp → DriverState × List Ctx
  | [] => (st, [])
  | op :: rest =>
    let s1 := driverStep st op
    let s2 := runDriver s1.1 rest
    (s2.1, s1.2 ++ s2.2)

/-- The full lifecycle path starting at a given state. -/
def pathFrom : LifecycleState → List LifecycleState
  | .INITIAL => [.INITIAL, .IN_SESSION, .ENDED]
  | .IN_SESSION => [.IN_SESSION, .ENDED]
  | .ENDED => [.ENDED]

/-- The driver's internal well-formedness: session data is present in the
states whose snapshots read it. -/
def stateOk (st : DriverState) : Prop :=
  (st.currentState = .IN_SESSION → st.sessionId.isSome ∧ st.startTime.isSome) ∧
  (st.currentState = .ENDED → st.sessionId.isSome ∧ st.sessionDurationMs.isSome)

/-! ## Event lifecycle gate (`platform/eventGate.ts`)

The gate receives typed `GameEvent` values (the closed vocabulary from
`event-types.ts`).  Branded strings are modelled as `String`, branded
non-negative integers as `Nat`, TypeScript numbers as `ℚ`, and the opaque
`stateBlob` / structured `data` payloads as `JSValue`. -/

/-- The closed event vocabulary (`event-types.ts`), one constructor per
variant of the discriminated union. -/
inductive GameEvent where
  | sessionStarted (sessionId : String)
  | sessionEnded (sessionId : String) (reason : String) (totalDurationMs : Nat)
  | sessionAborted (sessionId : String) (reason : String) (durationBeforeAbortMs : Nat)
  | levelStarted (levelId : String) (attemptNumber : ℚ) (difficulty : Nat)
  | levelCompleted (levelId : String) (attemptNumber : ℚ) (durationMs : Nat) (difficulty : Nat)
  | levelFailed (levelId : String) (attemptNumber : ℚ) (durationMs : Nat) (difficulty : Nat)
      (failureReason : Option String)
  | checkpointReached (levelId : String) (checkpointId : String) (elapsedMs : Nat)
  | performanceReported (accuracy reactionTimeMs errorCount hintsUsed streakLength successRate
      itemsCompleted : Option ℚ) (levelId : Option String)
  | activeTimeReported (activeDurationMs : Nat) (idleDurationMs : Option Nat)
      (pausesCount : Option ℚ) (levelId : Option String)
  | frictionReported (claimedDifficulty : Nat) (cognitiveLoadType : String)
      (ruleChangesCount simultaneousElementsCount : Option ℚ) (levelId : Option String)
  | errorMade (errorType : String) (count : Option ℚ) (levelId : Option String)
      (context : Option JSValue)
  | failureOccurred (failureType : String) (errorCount : Option ℚ) (levelId : Option String)
  | saveGameState (stateBlob : JSValue) (schemaVersion : ℚ)
  | userSignal (signalType : String) (value : Option ℚ) (levelId : Option String)
  | devLog (message : String) (data : Option JSValue) (level : Option String)

namespace GameEvent

/-- `event.type`: the discriminant tag. -/
def eventType : GameEvent → String
  | sessionStarted _ => "SESSION_STARTED"
  | sessionEnded _ _ _ => "SESSION_ENDED"
  | sessionAborted _ _ _ => "SESSION_ABORTED"
  | levelStarted _ _ _ => "LEVEL_STARTED"
  | levelCompleted _ _ _ _ => "LEVEL_COMPLETED"
  | levelFailed _ _ _ _ _ => "LEVEL_FAILED"
  | checkpointReached _ _ _ => "CHECKPOINT_REACHED"
  | performanceReported _ _ _ _ _ _ _ _ => "PERFORMANCE_REPORTED"
  | activeTimeReported _ _ _ _ => "ACTIVE_TIME_REPORTED"
  | frictionReported _ _ _ _ _ => "FRICTION_REPORTED"
  | errorMade _ _ _ _ => "ERROR_MADE"
  | failureOccurred _ _ _ => "FAILURE_OCCURRED"
  | saveGameState _ _ => "SAVE_GAME_STATE"
  | userSignal _ _ _ => "USER_SIGNAL"
  | devLog _ _ _ => "DEV_LOG"

/-- `hasSessionId(event)`: `'sessionId' in event && typeof event['sessionId']
=== 'string'`.  In the typed vocabulary exactly the three session-lifecycle
kinds carry a (string) `sessionId` field; the returned value is that
field. -/
def sessionIdField : GameEvent → Option String
  | sessionStarted sid => some sid
  | sessionEnded sid _ _ => some sid
  | sessionAborted sid _ _ => some sid
  | _ => none

end GameEvent

/-- Drop reason codes for gate diagnostics. -/
inductive DropReasonCode where
  | BEFORE_SESSION
  | SESSION_ID_MISMATCH
  | AFTER_SESSION_ENDED
  | INVALID_STATE_FOR_EVENT
deriving DecidableEq, Repr

/-- The decision a gated emit takes for one event: forward to
`platformEmit`, or drop, invoking the optional diagnostic callback with the
reason code (the human-readable reason string is not modelled). -/
inductive GateDecision where
  | emitted
  | dropped (code : DropReasonCode)
deriving DecidableEq, Repr

/-- The decision logic of the function returned by
`createGatedEmit(options)`, as a function of the gate's configuration flag,
the current context snapshot and the candidate event. -/
def gatedEmit (allowDevLogAfterEnd : Bool) (ctx : Ctx) (event : GameEvent) :
    GateDecision :=
  match ctx with
  | .initial =>
    -- Before session: ONLY DEV_LOG allowed for debugging
    if event.eventType = "DEV_LOG" then .emitted
    else .dropped .BEFORE_SESSION
  | .inSession ctxSessionId _ =>
    -- During session: validate sessionId if present
    match event.sessionIdField with
    | some sid =>
      if sid ≠ ctxSessionId then .dropped .SESSION_ID_MISMATCH
      else .emitted
    | none => .emitted
  | .ended _ _ =>
    -- After session: drop everything (maybe allow DEV_LOG)
    if event.eventType = "DEV_LOG" ∧ allowDevLogAfterEnd then .emitted
    else .dropped .AFTER_SESSION_ENDED

/-! ## Capability guard (`core/capability-guard.ts`)

The capability API objects produced by the host factories are opaque to the
guard; they are modelled by a type parameter.  A factory that can throw is a
function into `Except`. -/

/-- What a host-supplied runtime-permission predicate returns. -/
structure PermissionResult where
  granted : Bool
  reason : Option String := none

/-- The errors `getCapability` can throw: the deliberate
`CapabilityNotDeclaredError`, and the internal error raised when even the
no-op factory fails. -/
inductive GuardError where
  | notDeclared (capability : String)
  | internalNoOpFailure (capability : String)
deriving DecidableEq, Repr

/-- What `getCapability` returns on success. -/
structure CapabilityResult (Api : Type) where
  isAvailable : Bool
  api : Api
  unavailableReason : Option String := none

/-- Configuration of one capability guard (`CapabilityGuardConfig`); the
default permission checker grants everything. -/
structure GuardConfig (Api : Type) where
  declaredCapabilities : List String
  checkPermission : String → PermissionResult := fun _ => ⟨true, none⟩
  apiFactory : String → Except String Api
  noOpApiFactory : String → Except String Api

/-- `getCapability(capability)`: declaration check (throws `NotDeclared`),
then runtime permission; when granted, the real factory is tried under
try/catch and a failure falls through to the no-op path; the no-op path
builds the unavailable result, and only a no-op factory failure escapes as
an internal error. -/
def getCapability {Api : Type} (cfg : GuardConfig Api) (capability : String) :
    Except GuardError (CapabilityResult Api) :=
  -- Step 1: Check if declared
  if capability ∉ cfg.declaredCapabilities then
    .error (.notDeclared capability)
  else
    -- Step 2: Check runtime permission
    let permissionResult := cfg.checkPermission capability
    let fromReal : Option (CapabilityResult Api) :=
      if permissionResult.granted then
        match cfg.apiFactory capability with
        | .ok api => some ⟨true, api, none⟩
        | .error _ => none  -- factory threw: fall through to no-op
      else none
    match fromReal with
    | some result => .ok result
    | none =>
      match cfg.noOpApiFactory capability with
      | .error _ => .error (.internalNoOpFailure capability)
      | .ok noOpApi =>
        let reason := permissionResult.reason.getD "internal_error"
        .ok ⟨false, noOpApi, some reason⟩

/-! ## Theorems -/

/-- C2: The gated emit is a deterministic function of the lifecycle context
and the candidate event.  In `INITIAL`, only `DEV_LOG` is forwarded and
every other kind is dropped with `BEFORE_SESSION`; in `IN_SESSION`, an
event carrying a `sessionId` field is dropped with `SESSION_ID_MISMATCH`
exactly when it differs from the context's session identifier and all other
events are forwarded; in `ENDED`, everything is dropped with
`AFTER_SESSION_ENDED` except `DEV_LOG` when the gate was configured with
`allowDevLogAfterEnd = true` (the source defaults the flag to `false`). -/
theorem gatedEmit_lifecycle_rules (allow : Bool) (ctx : Ctx) (e : GameEvent) :
    (ctx = .initial →
      (gatedEmit allow ctx e = .emitted ↔ e.eventType = "DEV_LOG") ∧
      (e.eventType ≠ "DEV_LOG" → gatedEmit allow ctx e = .dropped .BEFORE_SESSION)) ∧
    (∀ sid t0, ctx = .inSession sid t0 →
      (∀ s, e.sessionIdField = some s →
        (gatedEmit allow ctx e = .dropped .SESSION_ID_MISMATCH ↔ s ≠ sid) ∧
        (s = sid → gatedEmit allow ctx e = .emitted)) ∧
      (e.sessionIdField = none → gatedEmit allow ctx e = .emitted)) ∧
    (∀ sid d, ctx = .ended sid d →
      gatedEmit allow ctx e =
        if e.eventType = "DEV_LOG" ∧ allow = true then .emitted
        else .dropped .AFTER_SESSION_ENDED) := by
  refine ⟨?_, ?_, ?_⟩
  · rintro rfl
    refine ⟨?_, fun h => ?_⟩
    · by_cases h : e.eventType = "DEV_LOG" <;> simp [gatedEmit, h]
    · simp [gatedEmit, h]
  · rintro sid t0 rfl
    refine ⟨fun s hs => ⟨?_, fun h => ?_⟩, fun h => ?_⟩
    · by_cases h : s = sid <;> simp [gatedEmit, hs, h]
    · simp [gatedEmit, hs, h]
    · simp [gatedEmit, h]
  · rintro sid d rfl
    by_cases h1 : e.eventType = "DEV_LOG" <;> by_cases h2 : allow = true <;>
      simp [gatedEmit, h1, h2]

/-- Closed instance of `gatedEmit_lifecycle_rules`: a `DEV_LOG` passes in
`INITIAL`, a gameplay event is dropped there, a mismatched session
acknowledgment is dropped in `IN_SESSION`, and a gameplay event is dropped
after `ENDED` by default. -/
theorem gatedEmit_lifecycle_rules_witness :
    gatedEmit false .initial (.devLog "m" none none) = .emitted ∧
    gatedEmit false .initial (.levelStarted "level-1" 1 5) = .dropped .BEFORE_SESSION ∧
    gatedEmit false (.inSession "s1" 0) (.sessionStarted "s2") = .dropped .SESSION_ID_MISMATCH ∧
    gatedEmit true (.ended "s1" 10) (.levelStarted "level-1" 1 5) = .dropped .AFTER_SESSION_ENDED := by
  refine ⟨?_, ?_, ?_, ?_⟩
  · exact ((gatedEmit_lifecycle_rules false .initial (.devLog "m" none none)).1 rfl).1.mpr rfl
  · exact ((gatedEmit_lifecycle_rules false .initial (.levelStarted "level-1" 1 5)).1 rfl).2
      (by decide)
  · exact (((gatedEmit_lifecycle_rules false (.inSession "s1" 0)
      (.sessionStarted "s2")).2.1 "s1" 0 rfl).1 "s2" rfl).1.mpr (by decide)
  · exact ((gatedEmit_lifecycle_rules true (.ended "s1" 10)
      (.levelStarted "level-1" 1 5)).2.2 "s1" 10 rfl).trans (by decide)

/-- C9: `getCapability(name)` throws `CapabilityNotDeclaredError` exactly
when `name` is not declared; for a declared name, when the permission check
denies or the real factory throws and the no-op factory succeeds, it
returns (without throwing) `isAvailable := false`, the no-op API, and a
populated `unavailableReason` (the checker's reason, or `internal_error`);
and for a declared name it can only throw when the no-op factory itself
threw. -/
theorem getCapability_contract {Api : Type} (cfg : GuardConfig Api) (c : String) :
    (getCapability cfg c = .error (.notDeclared c) ↔ c ∉ cfg.declaredCapabilities) ∧
    (∀ a, c ∈ cfg.declaredCapabilities →
      ((cfg.checkPermission c).granted = false ∨ (∃ err, cfg.apiFactory c = .error err)) →
      cfg.noOpApiFactory c = .ok a →
      getCapability cfg c =
        .ok ⟨false, a, some ((cfg.checkPermission c).reason.getD "internal_error")⟩) ∧
    (c ∈ cfg.declaredCapabilities → (∃ e, getCapability cfg c = .error e) →
      ∃ err, cfg.noOpApiFactory c = .error err) := by
  rcases hapi : cfg.apiFactory c with e1 | api <;>
    rcases hno : cfg.noOpApiFactory c with e2 | noop <;>
    by_cases hdecl : c ∈ cfg.declaredCapabilities <;>
    by_cases hg : (cfg.checkPermission c).granted = true <;>
    simp [getCapability, hdecl, hg, hapi, hno]

/-- Closed instance of `getCapability_contract`: an undeclared capability
throws; a declared but denied capability returns the no-op API, marked
unavailable with the checker's reason. -/
theorem getCapability_contract_witness :
    getCapability
      (⟨["audio"], fun _ => ⟨true, none⟩, fun _ => .ok (), fun _ => .ok ()⟩ : GuardConfig Unit)
      "haptics" = .error (.notDeclared "haptics") ∧
    getCapability
      (⟨["audio"], fun _ => ⟨false, some "quiet_mode"⟩, fun _ => .error "boom",
        fun _ => .ok ()⟩ : GuardConfig Unit)
      "audio" = .ok ⟨false, (), some "quiet_mode"⟩ := by
  constructor
  · exact (getCapability_contract
      (⟨["audio"], fun _ => ⟨true, none⟩, fun _ => .ok (), fun _ => .ok ()⟩ : GuardConfig Unit)
      "haptics").1.mpr (by decide)
  · exact (getCapability_contract
      (⟨["audio"], fun _ => ⟨false, some "quiet_mode"⟩, fun _ => .error "boom",
        fun _ => .ok ()⟩ : GuardConfig Unit)
      "audio").2.1 () (by decide) (Or.inl rfl) rfl

/-- Claim C8: `validateEvent(rawEvent, mode)` throws if and only if the
mode is development and the raw event is a non-null object within the
event size ceiling whose string `type` field is not a recognized tag; that
same input in production mode returns `valid := false` (with the
unknown-type error) without throwing; and every other input in either mode
yields a `ValidationResult` without throwing (the right-to-left emptiness
of the iff). -/
theorem validateEvent_throw_iff (e : JSValue) (mode : ValidationMode) :
    ((∃ err, validateEvent e mode = .error err) ↔
      mode = .development ∧ e.typeofObject = true ∧ e ≠ JSValue.null ∧
        ∃ t, e.getField "type" = .str t ∧ estimateSize e ≤ MAX_EVENT_SIZE ∧
          t ∉ knownEventTypes) ∧
    (∀ t : String, e.typeofObject = true → e ≠ JSValue.null →
      e.getField "type" = .str t → estimateSize e ≤ MAX_EVENT_SIZE →
      t ∉ knownEventTypes →
      validateEvent e .production =
        .ok ⟨false, none, ["Unknown event type: " ++ t], []⟩) := by
  refine ⟨?_, ?_⟩
  case refine_2 =>
    intro t hobj hnull htype hsz ht
    have hm : (match e with | JSValue.null => true | _ => false) = false := by
      cases e with
      | null => exact absurd rfl hnull
      | undef => rfl
      | bool b => rfl
      | num n => rfl
      | str s => rfl
      | arr es => rfl
      | obj fs => rfl
    have ht2 := ht
    simp only [knownEventTypes, List.mem_cons, List.not_mem_nil, or_false, not_or] at ht2
    obtain ⟨h1, h2, h3, h4, h5, h6, h7, h8, h9, h10, h11, h12, h13, h14, h15⟩ := ht2
    simp [validateEvent, hobj, hm, htype, Nat.not_lt_of_le hsz, h1, h2, h3, h4, h5, h6,
      h7, h8, h9, h10, h11, h12, h13, h14, h15]
  case refine_1 =>
    cases e with
    | undef => simp [validateEvent, JSValue.typeofObject]
    | null => simp [validateEvent]
    | bool b => simp [validateEvent, JSValue.typeofObject]
    | num n => simp [validateEvent, JSValue.typeofObject]
    | str s => simp [validateEvent, JSValue.typeofObject]
    | arr elems => simp [validateEvent, JSValue.typeofObject, JSValue.getField]
    | obj fields =>
      cases hf : (JSValue.obj fields).getField "type" with
      | str t =>
        by_cases hsz : estimateSize (JSValue.obj fields) > MAX_EVENT_SIZE
        · have hsz' : ¬estimateSize (JSValue.obj fields) ≤ MAX_EVENT_SIZE := Nat.not_le_of_lt hsz
          simp [validateEvent, JSValue.typeofObject, hf, hsz, hsz']
        · have hsz' : estimateSize (JSValue.obj fields) ≤ MAX_EVENT_SIZE := Nat.le_of_not_lt hsz
          by_cases ht : t ∈ knownEventTypes
          · have ht' := ht
            simp only [knownEventTypes, List.mem_cons, List.not_mem_nil, or_false] at ht'
            rcases ht' with rfl | rfl | rfl | rfl | rfl | rfl | rfl | rfl | rfl | rfl | rfl |
                rfl | rfl | rfl | rfl <;>
              simp [validateEvent, JSValue.typeofObject, hf, hsz, knownEventTypes]
          · have ht' := ht
            simp only [knownEventTypes, List.mem_cons, List.not_mem_nil, or_false, not_or] at ht'
            obtain ⟨h1, h2, h3, h4, h5, h6, h7, h8, h9, h10, h11, h12, h13, h14, h15⟩ := ht'
            cases mode with
            | development =>
              simp [validateEvent, JSValue.typeofObject, hf, hsz, hsz', ht, h1, h2, h3, h4, h5, h6, h7, h8, h9, h10,
                h11, h12, h13, h14, h15]
            | production =>
              simp [validateEvent, JSValue.typeofObject, hf, hsz, h1, h2, h3, h4, h5, h6, h7, h8, h9, h10, h11, h12,
                h13, h14, h15]
      | undef => simp [validateEvent, JSValue.typeofObject, hf]
      | null => simp [validateEvent, JSValue.typeofObject, hf]
      | bool b => simp [validateEvent, JSValue.typeofObject, hf]
      | num n => simp [validateEvent, JSValue.typeofObject, hf]
      | arr es => simp [validateEvent, JSValue.typeofObject, hf]
      | obj fs => simp [validateEvent, JSValue.typeofObject, hf]

/-- Closed instance of `validateEvent_throw_iff`: an unrecognized tag
throws in development mode, and the same input in production mode returns
`valid := false` without throwing. -/
theorem validateEvent_throw_iff_witness :
    (∃ err, validateEvent (.obj [("type", .str "NOPE")]) .development = .error err) ∧
    validateEvent (.obj [("type", .str "NOPE")]) .production =
      .ok ⟨false, none, ["Unknown event type: " ++ "NOPE"], []⟩ := by
  constructor
  · exact (validateEvent_throw_iff (.obj [("type", .str "NOPE")]) .development).1.mpr
      ⟨rfl, rfl, fun h => JSValue.noConfusion h, "NOPE", rfl, by decide, by decide⟩
  · exact (validateEvent_throw_iff (.obj [("type", .str "NOPE")]) .production).2 "NOPE"
      rfl (fun h => JSValue.noConfusion h) rfl (by decide) (by decide)

/-- Each run of a well-formed driver broadcasts snapshots whose states
continue the lifecycle path from the current state. -/
theorem runDriver_chain (ops : List DriverOp) : ∀ st, stateOk st →
    stateOk (runDriver st ops).1 ∧
    ∃ rest, (st.currentState :: ((runDriver st ops).2.map Ctx.state)) ++ rest =
      pathFrom st.currentState := by
  induction ops with
  | nil =>
    intro st h
    exact ⟨h, ⟨(pathFrom st.currentState).tail,
      by cases hc : st.currentState <;> simp [runDriver, pathFrom, hc]⟩⟩
  | cons op ops ih =>
    intro st h
    cases op with
    | start sid now =>
      by_cases hc : st.currentState = .INITIAL
      · have hstep : driverStep st (.start sid now) =
            ((⟨.IN_SESSION, some sid, some now, st.sessionDurationMs⟩ : DriverState),
             [Ctx.inSession sid now]) := by
          simp [driverStep, startSession, createContextSnapshot, hc, bind, Except.bind]
        have hok : stateOk (⟨.IN_SESSION, some sid, some now, st.sessionDurationMs⟩ : DriverState) := by
          constructor <;> intro hx <;> simp_all
        obtain ⟨hok', rest, hrest⟩ := ih _ hok
        refine ⟨by simpa [runDriver, hstep] using hok', ⟨rest, ?_⟩⟩
        simp only [runDriver, hstep, hc, pathFrom]
        simpa [pathFrom, Ctx.state] using hrest
      · have hstep : driverStep st (.start sid now) = (st, []) := by
          simp [driverStep, startSession, hc]
        obtain ⟨hok', rest, hrest⟩ := ih st h
        exact ⟨by simpa [runDriver, hstep] using hok',
          ⟨rest, by simpa [runDriver, hstep] using hrest⟩⟩
    | stop now =>
      by_cases hc : st.currentState = .IN_SESSION
      · obtain ⟨sid, hsid⟩ := Option.isSome_iff_exists.mp (h.1 hc).1
        have hstep : driverStep st (.stop now) =
            ((⟨.ENDED, some sid, st.startTime, some (now - st.startTime.getD 0)⟩ : DriverState),
             [Ctx.ended sid (now - st.startTime.getD 0)]) := by
          simp [driverStep, endSession, createContextSnapshot, hc, hsid, bind, Except.bind]
        have hok : stateOk
            (⟨.ENDED, some sid, st.startTime, some (now - st.startTime.getD 0)⟩ : DriverState) := by
          constructor <;> intro hx <;> simp_all [hsid]
        obtain ⟨hok', rest, hrest⟩ := ih _ hok
        refine ⟨by simpa [runDriver, hstep] using hok', ⟨rest, ?_⟩⟩
        simp only [runDriver, hstep, hc, pathFrom]
        simpa [pathFrom, Ctx.state] using hrest
      · have hstep : driverStep st (.stop now) = (st, []) := by
          simp [driverStep, endSession, hc]
        obtain ⟨hok', rest, hrest⟩ := ih st h
        exact ⟨by simpa [runDriver, hstep] using hok',
          ⟨rest, by simpa [runDriver, hstep] using hrest⟩⟩
    | abort now =>
      by_cases hc : st.currentState = .IN_SESSION
      · obtain ⟨sid, hsid⟩ := Option.isSome_iff_exists.mp (h.1 hc).1
        have hstep : driverStep st (.abort now) =
            ((⟨.ENDED, some sid, st.startTime, some (now - st.startTime.getD 0)⟩ : DriverState),
             [Ctx.ended sid (now - st.startTime.getD 0)]) := by
          simp [driverStep, abortSession, endSession, createContextSnapshot, hc, hsid, bind, Except.bind]
        have hok : stateOk
            (⟨.ENDED, some sid, st.startTime, some (now - st.startTime.getD 0)⟩ : DriverState) := by
          constructor <;> intro hx <;> simp_all [hsid]
        obtain ⟨hok', rest, hrest⟩ := ih _ hok
        refine ⟨by simpa [runDriver, hstep] using hok', ⟨rest, ?_⟩⟩
        simp only [runDriver, hstep, hc, pathFrom]
        simpa [pathFrom, Ctx.state] using hrest
      · have hstep : driverStep st (.abort now) = (st, []) := by
          simp [driverStep, abortSession, hc]
        obtain ⟨hok', rest, hrest⟩ := ih st h
        exact ⟨by simpa [runDriver, hstep] using hok',
          ⟨rest, by simpa [runDriver, hstep] using hrest⟩⟩

/-- C3: the sequence of states observed through `subscribe` (the state at
creation followed by every broadcast snapshot's state) is a prefix of
`INITIAL, IN_SESSION, ENDED` for every sequence of platform calls; and
`startSession` throws from `IN_SESSION` or `ENDED`, while `endSession` and
`abortSession` throw from any state other than `IN_SESSION`. -/
theorem sessionDriver_monotone_and_throws :
    (∀ ops : List DriverOp, ∃ rest,
      (LifecycleState.INITIAL :: ((runDriver initDriverState ops).2.map Ctx.state)) ++ rest =
        [LifecycleState.INITIAL, .IN_SESSION, .ENDED]) ∧
    (∀ (st : DriverState) (sid : String) (now : Nat),
      st.currentState = .IN_SESSION ∨ st.currentState = .ENDED →
      startSession st sid now = .error "Cannot start session: already started") ∧
    (∀ (st : DriverState) (now : Nat), st.currentState ≠ .IN_SESSION →
      endSession st now = .error "Cannot end session: not in session") ∧
    (∀ (st : DriverState) (now : Nat), st.currentState ≠ .IN_SESSION →
      abortSession st now = .error "Cannot abort session: not in session") := by
  refine ⟨?_, ?_, ?_, ?_⟩
  · intro ops
    obtain ⟨_, rest, hrest⟩ := runDriver_chain ops initDriverState
      (by constructor <;> intro hx <;> simp [initDriverState] at hx)
    exact ⟨rest, by simpa [initDriverState, pathFrom] using hrest⟩
  · intro st sid now h
    have : st.currentState ≠ .INITIAL := by rcases h with h | h <;> simp [h]
    simp [startSession, this]
  · intro st now h
    simp [endSession, h]
  · intro st now h
    simp [abortSession, h]

/-- Closed instance of `sessionDriver_monotone_and_throws`: a start-end run
broadcasts `IN_SESSION` then `ENDED`, and a second `startSession` (from
`ENDED`) throws. -/
theorem sessionDriver_monotone_and_throws_witness :
    (∃ rest,
      (LifecycleState.INITIAL ::
        ((runDriver initDriverState [.start "s1" 5, .stop 25]).2.map Ctx.state)) ++ rest =
        [LifecycleState.INITIAL, .IN_SESSION, .ENDED]) ∧
    startSession ⟨.ENDED, some "s1", some 5, some 20⟩ "s2" 30 =
      .error "Cannot start session: already started" := by
  constructor
  · exact sessionDriver_monotone_and_throws.1 [.start "s1" 5, .stop 25]
  · exact sessionDriver_monotone_and_throws.2.1 ⟨.ENDED, some "s1", some 5, some 20⟩ "s2" 30
      (Or.inr rfl)

/-! ### Emission pipeline lemmas and theorems -/

/-- When the window has not expired and the ceiling is not reached, the
limiter admits the call and consumes a slot. -/
theorem checkRateLimit_no_reset_lt (st : EmitterState) (now : Nat)
    (hwin : now - st.rateLimitWindowStart < RATE_LIMIT_WINDOW_MS)
    (hcnt : st.eventsInWindow < MAX_EVENTS_PER_SECOND) :
    checkRateLimit st now = (true, { st with eventsInWindow := st.eventsInWindow + 1 }) := by
  simp [checkRateLimit, Nat.not_le_of_lt hwin, Nat.not_le_of_lt hcnt]

/-- When the window has not expired and the ceiling is reached, the limiter
refuses and changes nothing. -/
theorem checkRateLimit_no_reset_ge (st : EmitterState) (now : Nat)
    (hwin : now - st.rateLimitWindowStart < RATE_LIMIT_WINDOW_MS)
    (hcnt : MAX_EVENTS_PER_SECOND ≤ st.eventsInWindow) :
    checkRateLimit st now = (false, st) := by
  simp [checkRateLimit, Nat.not_le_of_lt hwin, hcnt]

/-- When the window has expired, the limiter resets it and admits the call
as the first event of the new window. -/
theorem checkRateLimit_reset (st : EmitterState) (now : Nat)
    (hwin : RATE_LIMIT_WINDOW_MS ≤ now - st.rateLimitWindowStart) :
    checkRateLimit st now =
      (true, { st with rateLimitWindowStart := now, eventsInWindow := 1 }) := by
  simp [checkRateLimit, hwin, MAX_EVENTS_PER_SECOND]

/-- Once the limiter admits a call, no later processing step touches the
rate-limiter fields, whatever the outcome. -/
theorem emit_after_pass (cfg : EmitterConfig) (st : EmitterState) (now : Nat) (e : JSValue)
    (st1 : EmitterState) (h : checkRateLimit st now = (true, st1)) :
    (emit cfg st now e).1.admitted = true ∧
    (emit cfg st now e).2.rateLimitWindowStart = st1.rateLimitWindowStart ∧
    (emit cfg st now e).2.eventsInWindow = st1.eventsInWindow := by
  unfold emit
  rw [h]
  by_cases hm : cfg.mode = .production
  · rcases hg : e.getMember "type" with u | t
    · simp [hm, hg, EmitOutcome.admitted]
    · cases hb : (match t with | JSValue.str "DEV_LOG" => true | _ => false)
      · rcases hv : validateEvent e cfg.mode with err | r
        · simp [hm, hg, hb, hv, EmitOutcome.admitted]
        · by_cases hvv : r.valid = false <;> simp [hm, hg, hb, hv, hvv, EmitOutcome.admitted]
      · simp [hm, hg, hb, EmitOutcome.admitted]
  · rcases hv : validateEvent e cfg.mode with err | r
    · simp [hm, hv, EmitOutcome.admitted]
    · by_cases hvv : r.valid = false <;> simp [hm, hv, hvv, EmitOutcome.admitted]

/-- A refused call only increments the dropped counter. -/
theorem emit_refused (cfg : EmitterConfig) (st : EmitterState) (now : Nat) (e : JSValue)
    (h : checkRateLimit st now = (false, st)) :
    (emit cfg st now e).1.admitted = false ∧
    (emit cfg st now e).2 = { st with droppedCount := st.droppedCount + 1 } := by
  unfold emit
  rw [h]
  by_cases hm : cfg.mode = .development
  · rcases hg : e.getMember "type" with u | t <;> simp [hm, hg, EmitOutcome.admitted]
  · simp [hm, EmitOutcome.admitted]
/-- One `runEmits` step. -/
theorem runEmits_cons (cfg : EmitterConfig) (st : EmitterState) (now : Nat) (e : JSValue)
    (rest : List (Nat × JSValue)) :
    runEmits cfg st ((now, e) :: rest) =
      ((emit cfg st now e).1 :: (runEmits cfg (emit cfg st now e).2 rest).1,
       (runEmits cfg (emit cfg st now e).2 rest).2) := by
  simp [runEmits]

/-- Unfolding lemma for the admitted-call count. -/
theorem countAdmitted_cons (o : EmitOutcome) (outs : List EmitOutcome) :
    countAdmitted (o :: outs) = (if o.admitted = true then 1 else 0) + countAdmitted outs := by
  simp [countAdmitted, List.filter_cons]
  split <;> simp [Nat.add_comm]

/-- The limiter refuses only while leaving its own state untouched. -/
theorem checkRateLimit_refused_state (st st1 : EmitterState) (now : Nat)
    (h : checkRateLimit st now = (false, st1)) : st1 = st := by
  by_cases hr : RATE_LIMIT_WINDOW_MS ≤ now - st.rateLimitWindowStart
  · rw [checkRateLimit_reset st now hr] at h
    exact absurd (congrArg Prod.fst h) (by simp)
  · push_neg at hr
    by_cases hc : st.eventsInWindow < MAX_EVENTS_PER_SECOND
    · rw [checkRateLimit_no_reset_lt st now hr hc] at h
      exact absurd (congrArg Prod.fst h) (by simp)
    · push_neg at hc
      rw [checkRateLimit_no_reset_ge st now hr hc] at h
      simpa using (congrArg Prod.snd h).symm

/-- An admitted in-window call increments the slot counter by one and keeps
the window anchor. -/
theorem emit_pass_no_reset (cfg : EmitterConfig) (st : EmitterState) (now : Nat) (e : JSValue)
    (hwin : now - st.rateLimitWindowStart < RATE_LIMIT_WINDOW_MS)
    (hcnt : st.eventsInWindow < MAX_EVENTS_PER_SECOND) :
    (emit cfg st now e).1.admitted = true ∧
    (emit cfg st now e).2.rateLimitWindowStart = st.rateLimitWindowStart ∧
    (emit cfg st now e).2.eventsInWindow = st.eventsInWindow + 1 := by
  obtain ⟨h1, h2, h3⟩ :=
    emit_after_pass cfg st now e _ (checkRateLimit_no_reset_lt st now hwin hcnt)
  exact ⟨h1, h2, h3⟩

/-- A call after window expiry is admitted as the first of a fresh window. -/
theorem emit_pass_reset (cfg : EmitterConfig) (st : EmitterState) (now : Nat) (e : JSValue)
    (hwin : RATE_LIMIT_WINDOW_MS ≤ now - st.rateLimitWindowStart) :
    (emit cfg st now e).1.admitted = true ∧
    (emit cfg st now e).2.rateLimitWindowStart = now ∧
    (emit cfg st now e).2.eventsInWindow = 1 := by
  obtain ⟨h1, h2, h3⟩ := emit_after_pass cfg st now e _ (checkRateLimit_reset st now hwin)
  exact ⟨h1, h2, h3⟩

/-- Within one limiter window (every call arrives before expiry), the
number of admitted calls plus the already-consumed slots never exceeds the
ceiling. -/
theorem rateLimiter_window_aux (cfg : EmitterConfig) (trace : List (Nat × JSValue)) :
    ∀ st : EmitterState,
      (∀ p ∈ trace, p.1 - st.rateLimitWindowStart < RATE_LIMIT_WINDOW_MS) →
      st.eventsInWindow ≤ MAX_EVENTS_PER_SECOND →
      countAdmitted (runEmits cfg st trace).1 + st.eventsInWindow ≤ MAX_EVENTS_PER_SECOND := by
  induction trace with
  | nil =>
    intro st _ h2
    simpa [runEmits, countAdmitted] using h2
  | cons p rest ih =>
    rcases p with ⟨now, e⟩
    intro st h1 h2
    have hwin := h1 (now, e) (List.mem_cons_self _ _)
    rw [runEmits_cons, countAdmitted_cons]
    by_cases hcnt : st.eventsInWindow < MAX_EVENTS_PER_SECOND
    · obtain ⟨ha, hws, hcount⟩ := emit_pass_no_reset cfg st now e hwin hcnt
      have hih := ih (emit cfg st now e).2
        (fun q hq => by rw [hws]; exact h1 q (List.mem_cons_of_mem _ hq))
        (by rw [hcount]; exact hcnt)
      rw [hcount] at hih
      simp only [ha, if_pos]
      omega
    · push_neg at hcnt
      obtain ⟨ha, hst⟩ := emit_refused cfg st now e (checkRateLimit_no_reset_ge st now hwin hcnt)
      have hcount2 : (emit cfg st now e).2.eventsInWindow = st.eventsInWindow := by rw [hst]
      have hws2 : (emit cfg st now e).2.rateLimitWindowStart = st.rateLimitWindowStart := by
        rw [hst]
      have hih := ih (emit cfg st now e).2
        (fun q hq => by rw [hws2]; exact h1 q (List.mem_cons_of_mem _ hq))
        (by rw [hcount2]; exact h2)
      rw [hcount2] at hih
      simp only [ha, Bool.false_eq_true, if_false]
      omega
/-- Claim C4 (amended): at most 50 events are admitted per fixed limiter
window — across any run whose calls all fall inside the current window, the
admitted count plus the already-consumed slots stays within the 50-event
ceiling; a rate-limited call increments the dropped counter and changes
nothing else (never queued or delayed); and a call arriving after window
expiry resets the window and is admitted as its first event.  (The rolling
one-second reading of the claim fails: see the counterexample.) -/
theorem rateLimiter_fixed_window_bound (cfg : EmitterConfig) :
    (∀ (trace : List (Nat × JSValue)) (st : EmitterState),
      (∀ p ∈ trace, p.1 - st.rateLimitWindowStart < RATE_LIMIT_WINDOW_MS) →
      st.eventsInWindow ≤ MAX_EVENTS_PER_SECOND →
      countAdmitted (runEmits cfg st trace).1 + st.eventsInWindow ≤ MAX_EVENTS_PER_SECOND) ∧
    (∀ (st : EmitterState) (now : Nat) (e : JSValue),
      (emit cfg st now e).1.admitted = false →
      (emit cfg st now e).2 = { st with droppedCount := st.droppedCount + 1 }) ∧
    (∀ (st : EmitterState) (now : Nat) (e : JSValue),
      RATE_LIMIT_WINDOW_MS ≤ now - st.rateLimitWindowStart →
      (emit cfg st now e).1.admitted = true ∧
      (emit cfg st now e).2.rateLimitWindowStart = now ∧
      (emit cfg st now e).2.eventsInWindow = 1) := by
  refine ⟨rateLimiter_window_aux cfg, ?_, fun st now e hwin => emit_pass_reset cfg st now e hwin⟩
  intro st now e ha
  rcases hc : checkRateLimit st now with ⟨b, st1⟩
  cases b
  · have hse : st1 = st := checkRateLimit_refused_state st st1 now hc
    rw [hse] at hc
    exact (emit_refused cfg st now e hc).2
  · have := (emit_after_pass cfg st now e st1 hc).1
    rw [this] at ha
    exact absurd ha (by simp)

set_option maxRecDepth 10000 in
/-- Claim C4 (counterexample): the limiter is a fixed, reset-on-expiry
window, not a rolling one.  50 events at t = 999 and 50 events at t = 1000
are all 100 admitted, although every call lies inside the rolling
one-second window [999, 1999), contradicting the claimed rolling-window
ceiling of 50. -/
theorem rateLimiter_rolling_window_violated :
    countAdmitted (runEmits ⟨"game-1", "0.1.0", none, .development, []⟩
      (initEmitterState 0) burstTrace).1 = 100 ∧
    ∀ p ∈ burstTrace, 999 ≤ p.1 ∧ p.1 ≤ 1000 := by
  constructor
  · decide
  · decide

/-- Closed instance of `rateLimiter_fixed_window_bound`: a single in-window
emit stays within the ceiling. -/
theorem rateLimiter_fixed_window_bound_witness :
    countAdmitted (runEmits ⟨"game-1", "0.1.0", none, .development, []⟩
      (initEmitterState 0) [(5, devLogEvt)]).1 + 0 ≤ MAX_EVENTS_PER_SECOND := by
  exact (rateLimiter_fixed_window_bound _).1 [(5, devLogEvt)] (initEmitterState 0)
    (fun p hp => by rw [List.mem_singleton] at hp; subst hp; decide) (by decide)

/-- One production-mode emit of a `DEV_LOG` event inside the window:
admitted (slot consumed), then discarded with no validation, delivery or
counter change. -/
theorem emit_devlog_prod_step (cfg : EmitterConfig) (hm : cfg.mode = .production)
    (ec dc ws k u : Nat) (hwin : u - ws < RATE_LIMIT_WINDOW_MS)
    (hk : k < MAX_EVENTS_PER_SECOND) :
    emit cfg ⟨ec, dc, ws, k⟩ u devLogEvt = (.devLogSkipped, ⟨ec, dc, ws, k + 1⟩) := by
  unfold emit
  rw [checkRateLimit_no_reset_lt ⟨ec, dc, ws, k⟩ u hwin hk]
  simp [hm, devLogEvt, JSValue.getMember, JSValue.getField]

/-- A production-mode burst of in-window `DEV_LOG` emits is discarded
whole, while consuming one slot each. -/
theorem runEmits_devlog_prod (cfg : EmitterConfig) (hm : cfg.mode = .production)
    (ec dc ws : Nat) (ts : List Nat) : ∀ k : Nat, k + ts.length ≤ MAX_EVENTS_PER_SECOND →
    (∀ u ∈ ts, u - ws < RATE_LIMIT_WINDOW_MS) →
    runEmits cfg ⟨ec, dc, ws, k⟩ (ts.map (fun u => (u, devLogEvt))) =
      (List.replicate ts.length .devLogSkipped, ⟨ec, dc, ws, k + ts.length⟩) := by
  induction ts with
  | nil => intro k h1 h2; simp [runEmits]
  | cons u rest ih =>
    intro k h1 h2
    have hstep := emit_devlog_prod_step cfg hm ec dc ws k u
      (h2 u (List.mem_cons_self _ _)) (by simp at h1; omega)
    rw [List.map_cons, runEmits_cons, hstep]
    have hrec := ih (k + 1) (by simp at h1 ⊢; omega)
      (fun v hv => h2 v (List.mem_cons_of_mem _ hv))
    simp only [hrec]
    have harith : k + 1 + rest.length = k + (rest.length + 1) := by omega
    simp [List.replicate_succ, harith]
/-- An in-window production-mode call arriving at a full window is
rate-limited. -/
theorem emit_rateLimited_prod (cfg : EmitterConfig) (hm : cfg.mode = .production)
    (st : EmitterState) (t : Nat) (e : JSValue)
    (hwin : t - st.rateLimitWindowStart < RATE_LIMIT_WINDOW_MS)
    (hful : MAX_EVENTS_PER_SECOND ≤ st.eventsInWindow) :
    emit cfg st t e = (.rateLimited, { st with droppedCount := st.droppedCount + 1 }) := by
  unfold emit
  rw [checkRateLimit_no_reset_ge st t hwin hful]
  simp [hm]

/-- Claim C10: every admitted `emit` call consumes one rate-limit slot
before any other processing — in particular 50 production-mode `DEV_LOG`
emits, all discarded before validation, fill the window, and the next emit
in the same window (whatever its event, valid or not) is dropped by the
rate limiter with only the dropped counter incremented. -/
theorem emit_slot_consumed (cfg : EmitterConfig) :
    (∀ (st : EmitterState) (now : Nat) (e : JSValue),
      now - st.rateLimitWindowStart < RATE_LIMIT_WINDOW_MS →
      st.eventsInWindow < MAX_EVENTS_PER_SECOND →
      (emit cfg st now e).2.eventsInWindow = st.eventsInWindow + 1) ∧
    (∀ (ec dc ws : Nat) (ts : List Nat) (t : Nat) (e : JSValue),
      cfg.mode = .production → ts.length = MAX_EVENTS_PER_SECOND →
      (∀ u ∈ ts, u - ws < RATE_LIMIT_WINDOW_MS) → t - ws < RATE_LIMIT_WINDOW_MS →
      (runEmits cfg ⟨ec, dc, ws, 0⟩ (ts.map (fun u => (u, devLogEvt)))).1 =
        List.replicate MAX_EVENTS_PER_SECOND .devLogSkipped ∧
      emit cfg (runEmits cfg ⟨ec, dc, ws, 0⟩ (ts.map (fun u => (u, devLogEvt)))).2 t e =
        (.rateLimited, ⟨ec, dc + 1, ws, MAX_EVENTS_PER_SECOND⟩)) := by
  constructor
  · intro st now e hwin hcnt
    exact (emit_pass_no_reset cfg st now e hwin hcnt).2.2
  · intro ec dc ws ts t e hm hlen hts ht
    have hrun := runEmits_devlog_prod cfg hm ec dc ws ts 0 (by omega) hts
    refine ⟨by rw [hrun, hlen], ?_⟩
    rw [hrun]
    simp only [hlen]
    exact emit_rateLimited_prod cfg hm ⟨ec, dc, ws, MAX_EVENTS_PER_SECOND⟩ t e ht (le_refl _)

/-- Closed instance of `emit_slot_consumed`: 50 discarded `DEV_LOG` emits
at t = 5 exhaust the window and the 51st emit — a well-formed
`SESSION_STARTED` — is rate-limited. -/
theorem emit_slot_consumed_witness :
    (runEmits ⟨"game-1", "0.1.0", none, .production, []⟩
      ⟨0, 0, 0, 0⟩ ((List.replicate 50 5).map (fun u => (u, devLogEvt)))).1 =
      List.replicate MAX_EVENTS_PER_SECOND .devLogSkipped ∧
    emit ⟨"game-1", "0.1.0", none, .production, []⟩
      (runEmits ⟨"game-1", "0.1.0", none, .production, []⟩
        ⟨0, 0, 0, 0⟩ ((List.replicate 50 5).map (fun u => (u, devLogEvt)))).2 6
      (.obj [("type", .str "SESSION_STARTED"), ("sessionId", .str "s1")]) =
      (.rateLimited, ⟨0, 1, 0, MAX_EVENTS_PER_SECOND⟩) := by
  exact (emit_slot_consumed ⟨"game-1", "0.1.0", none, .production, []⟩).2 0 0 0
    (List.replicate 50 5) 6 (.obj [("type", .str "SESSION_STARTED"), ("sessionId", .str "s1")])
    rfl (by decide) (fun u hu => by rw [List.eq_of_mem_replicate hu]; decide) (by decide)

/-- Claim C1 (code bug): `emit(event)` is documented to never throw for any
input, yet `emit(null)` in production mode reaches the unguarded
`event.type` member access in the DEV_LOG check (after consuming a
rate-limit slot) and a `TypeError` escapes to the caller.  The same input
in development mode reaches the validator, which handles the non-object
shape and drops the event without throwing — the wider claim (validator
exceptions caught, handler exceptions contained) holds on every such
handled path, but the null/undefined member access breaks the universal
never-throws contract. -/
theorem emit_throws_on_null_event :
    emit ⟨"game-1", "0.1.0", none, .production, []⟩ (initEmitterState 0) 5 .null =
      (.threw .typeError, ⟨0, 0, 0, 1⟩) ∧
    (emit ⟨"game-1", "0.1.0", none, .development, []⟩ (initEmitterState 0) 5 .null).1 =
      .invalid := by
  constructor <;> rfl

/-! ### Validation-engine clamping and size-ceiling theorems -/

/-- Claim C5 (amended): an out-of-range finite number in an analytics field
is always clamped to the nearest valid bound with `valid := true`, but a
warning is recorded only for the proportion fields `accuracy` and
`successRate` and for `USER_SIGNAL.value`; the non-negative magnitude
fields `reactionTimeMs`, `errorCount`, `hintsUsed` and `streakLength` are
clamped silently (empty warnings list). -/
theorem analytics_clamp_behavior :
    (∀ (q : ℚ) (mode : ValidationMode), 1 < q →
      validatePerformanceReported (perfEvt "accuracy" (.num (.fin q))) mode =
        ⟨true, some (perfEvt "accuracy" (.num (.fin 1))), [],
         ["accuracy clamped to " ++ tsNumToString 1]⟩) ∧
    (∀ (q : ℚ) (mode : ValidationMode), q < 0 →
      validatePerformanceReported (perfEvt "accuracy" (.num (.fin q))) mode =
        ⟨true, some (perfEvt "accuracy" (.num (.fin 0))), [],
         ["accuracy clamped to " ++ tsNumToString 0]⟩) ∧
    (∀ (q : ℚ) (mode : ValidationMode), 1 < q →
      validatePerformanceReported (perfEvt "successRate" (.num (.fin q))) mode =
        ⟨true, some (perfEvt "successRate" (.num (.fin 1))), [],
         ["successRate clamped to " ++ tsNumToString 1]⟩) ∧
    (∀ (q : ℚ) (mode : ValidationMode), q < 0 →
      validatePerformanceReported (perfEvt "successRate" (.num (.fin q))) mode =
        ⟨true, some (perfEvt "successRate" (.num (.fin 0))), [],
         ["successRate clamped to " ++ tsNumToString 0]⟩) ∧
    (∀ (q : ℚ) (mode : ValidationMode), q < 0 →
      validatePerformanceReported (perfEvt "reactionTimeMs" (.num (.fin q))) mode =
        ⟨true, some (perfEvt "reactionTimeMs" (.num (.fin 0))), [], []⟩) ∧
    (∀ (q : ℚ) (mode : ValidationMode), q < 0 →
      validatePerformanceReported (perfEvt "errorCount" (.num (.fin q))) mode =
        ⟨true, some (perfEvt "errorCount" (.num (.fin 0))), [], []⟩) ∧
    (∀ (q : ℚ) (mode : ValidationMode), q < 0 →
      validatePerformanceReported (perfEvt "hintsUsed" (.num (.fin q))) mode =
        ⟨true, some (perfEvt "hintsUsed" (.num (.fin 0))), [], []⟩) ∧
    (∀ (q : ℚ) (mode : ValidationMode), q < 0 →
      validatePerformanceReported (perfEvt "streakLength" (.num (.fin q))) mode =
        ⟨true, some (perfEvt "streakLength" (.num (.fin 0))), [], []⟩) ∧
    (∀ (q : ℚ) (mode : ValidationMode), 1 < q →
      validateUserSignal (sigEvt (.num (.fin q))) mode =
        ⟨true, some (sigEvt (.num (.fin 1))), [],
         ["value clamped to " ++ tsNumToString 1]⟩) ∧
    (∀ (q : ℚ) (mode : ValidationMode), q < 0 →
      validateUserSignal (sigEvt (.num (.fin q))) mode =
        ⟨true, some (sigEvt (.num (.fin 0))), [],
         ["value clamped to " ++ tsNumToString 0]⟩) := by
  refine ⟨?_, ?_, ?_, ?_, ?_, ?_, ?_, ?_, ?_, ?_⟩ <;> intro q mode h
  case refine_1 | refine_3 =>
    have h1 : min 1 q = 1 := min_eq_left (le_of_lt h)
    have hne : (1:ℚ) ≠ q := ne_of_lt h
    simp [validatePerformanceReported, clampField01, clampFieldNonNeg, perfEvt,
      JSValue.getField, List.lookup, JSValue.objFields, JSValue.setField, clampOptional,
      clampNonNegative, h1, hne, max_eq_right (zero_le_one' ℚ)]
  case refine_2 | refine_4 =>
    have h1 : min 1 q = q := min_eq_right (le_of_lt (lt_trans h zero_lt_one))
    have h2 : max 0 q = 0 := max_eq_left (le_of_lt h)
    have hne : (0:ℚ) ≠ q := ne_of_gt h
    simp [validatePerformanceReported, clampField01, clampFieldNonNeg, perfEvt,
      JSValue.getField, List.lookup, JSValue.objFields, JSValue.setField, clampOptional,
      clampNonNegative, h1, h2, hne]
  case refine_5 | refine_6 | refine_7 | refine_8 =>
    have h2 : max 0 q = 0 := max_eq_left (le_of_lt h)
    simp [validatePerformanceReported, clampField01, clampFieldNonNeg, perfEvt,
      JSValue.getField, List.lookup, JSValue.objFields, JSValue.setField, clampOptional,
      clampNonNegative, h2]
  case refine_9 =>
    have h1 : min 1 q = 1 := min_eq_left (le_of_lt h)
    have hne : (1:ℚ) ≠ q := ne_of_lt h
    simp [validateUserSignal, sigEvt, JSValue.getField, List.lookup, JSValue.objFields,
      JSValue.setField, includesStr, clampOptional, h1, hne, max_eq_right (zero_le_one' ℚ)]
  case refine_10 =>
    have h1 : min 1 q = q := min_eq_right (le_of_lt (lt_trans h zero_lt_one))
    have h2 : max 0 q = 0 := max_eq_left (le_of_lt h)
    have hne : (0:ℚ) ≠ q := ne_of_gt h
    simp [validateUserSignal, sigEvt, JSValue.getField, List.lookup, JSValue.objFields,
      JSValue.setField, includesStr, clampOptional, h1, h2, hne]
/-- A present value that is not a finite number never clamps. -/
theorem nonNumeric_not_finite_clampOptional (v : JSValue) (hu : v ≠ .undef)
    (hn : ∀ q : ℚ, v ≠ .num (.fin q)) (lo hi : ℚ) : clampOptional v lo hi = none := by
  cases v with
  | num n =>
    cases n with
    | fin q => exact absurd rfl (hn q)
    | nan => simp [clampOptional]
    | posInf => simp [clampOptional]
    | negInf => simp [clampOptional]
  | undef => exact absurd rfl hu
  | null => simp [clampOptional]
  | bool b => simp [clampOptional]
  | str s => simp [clampOptional]
  | arr es => simp [clampOptional]
  | obj fs => simp [clampOptional]

/-- Claim C6 (amended): a present non-numeric analytics field is handled
asymmetrically — `PERFORMANCE_REPORTED` rejects the whole event
(`valid := false` with an error naming the field, no warning), while
`USER_SIGNAL` drops only the `value` field from the cleaned event, records
a warning, and keeps the event valid. -/
theorem nonNumeric_analytics_behavior :
    (∀ (v : JSValue) (mode : ValidationMode), v ≠ .undef → (∀ q : ℚ, v ≠ .num (.fin q)) →
      validatePerformanceReported (perfEvt "accuracy" v) mode =
        ⟨false, none, ["accuracy must be a number"], []⟩) ∧
    (∀ (v : JSValue) (mode : ValidationMode), v ≠ .undef → (∀ q : ℚ, v ≠ .num (.fin q)) →
      validatePerformanceReported (perfEvt "successRate" v) mode =
        ⟨false, none, ["successRate must be a number"], []⟩) ∧
    (∀ (v : JSValue) (mode : ValidationMode), v ≠ .undef → (∀ q : ℚ, v ≠ .num (.fin q)) →
      validatePerformanceReported (perfEvt "reactionTimeMs" v) mode =
        ⟨false, none, ["reactionTimeMs must be a number"], []⟩) ∧
    (∀ (v : JSValue) (mode : ValidationMode), v ≠ .undef → (∀ q : ℚ, v ≠ .num (.fin q)) →
      validatePerformanceReported (perfEvt "errorCount" v) mode =
        ⟨false, none, ["errorCount must be a number"], []⟩) ∧
    (∀ (v : JSValue) (mode : ValidationMode), v ≠ .undef → (∀ q : ℚ, v ≠ .num (.fin q)) →
      validatePerformanceReported (perfEvt "hintsUsed" v) mode =
        ⟨false, none, ["hintsUsed must be a number"], []⟩) ∧
    (∀ (v : JSValue) (mode : ValidationMode), v ≠ .undef → (∀ q : ℚ, v ≠ .num (.fin q)) →
      validatePerformanceReported (perfEvt "streakLength" v) mode =
        ⟨false, none, ["streakLength must be a number"], []⟩) ∧
    (∀ (v : JSValue) (mode : ValidationMode), v ≠ .undef → (∀ q : ℚ, v ≠ .num (.fin q)) →
      validateUserSignal (sigEvt v) mode =
        ⟨true, some sigEvtNoValue, [], ["value was not a valid number, omitted"]⟩) := by
  refine ⟨?_, ?_, ?_, ?_, ?_, ?_, ?_⟩ <;> intro v mode hu hn
  case refine_7 =>
    have hcl := nonNumeric_not_finite_clampOptional v hu hn 0 1
    simp [validateUserSignal, sigEvt, sigEvtNoValue, JSValue.getField, List.lookup,
      JSValue.objFields, JSValue.deleteField, includesStr, hcl, hu]
  all_goals
    have hcl := nonNumeric_not_finite_clampOptional v hu hn 0 1
    have hcl2 : clampNonNegative v = none := by
      cases v with
      | num n =>
        cases n with
        | fin q => exact absurd rfl (hn q)
        | nan => simp [clampNonNegative]
        | posInf => simp [clampNonNegative]
        | negInf => simp [clampNonNegative]
      | undef => exact absurd rfl hu
      | null => simp [clampNonNegative]
      | bool b => simp [clampNonNegative]
      | str s => simp [clampNonNegative]
      | arr es => simp [clampNonNegative]
      | obj fs => simp [clampNonNegative]
    simp [validatePerformanceReported, clampField01, clampFieldNonNeg, perfEvt,
      JSValue.getField, List.lookup, JSValue.objFields, JSValue.setField, hcl, hcl2, hu]

/-- Closed instance of `nonNumeric_analytics_behavior` at a string-valued
`accuracy` and a string-valued `value`. -/
theorem nonNumeric_analytics_behavior_witness :
    validatePerformanceReported (perfEvt "accuracy" (.str "high")) .production =
      ⟨false, none, ["accuracy must be a number"], []⟩ ∧
    validateUserSignal (sigEvt (.str "x")) .production =
      ⟨true, some sigEvtNoValue, [], ["value was not a valid number, omitted"]⟩ := by
  constructor
  · exact nonNumeric_analytics_behavior.1 (.str "high") .production
      (fun h => JSValue.noConfusion h) (fun q h => JSValue.noConfusion h)
  · exact nonNumeric_analytics_behavior.2.2.2.2.2.2 (.str "x") .production
      (fun h => JSValue.noConfusion h) (fun q h => JSValue.noConfusion h)

/-- Claim C6 (counterexample): a `PERFORMANCE_REPORTED` event with
`accuracy: "high"` is rejected outright, not accepted with the field
dropped. -/
theorem nonNumeric_analytics_dropped_refuted :
    validateEvent (perfEvt "accuracy" (.str "high")) .production =
      .ok ⟨false, none, ["accuracy must be a number"], []⟩ := by
  rfl
/-- Closed instance of `analytics_clamp_behavior`: accuracy 1.5 clamps to 1
with a warning; a USER_SIGNAL value of -1 clamps to 0 with a warning. -/
theorem analytics_clamp_behavior_witness :
    validatePerformanceReported (perfEvt "accuracy" (.num (.fin (3/2)))) .production =
      ⟨true, some (perfEvt "accuracy" (.num (.fin 1))), [],
       ["accuracy clamped to " ++ tsNumToString 1]⟩ ∧
    validateUserSignal (sigEvt (.num (.fin (-1)))) .production =
      ⟨true, some (sigEvt (.num (.fin 0))), [], ["value clamped to " ++ tsNumToString 0]⟩ := by
  constructor
  · exact analytics_clamp_behavior.1 (3/2) .production (by norm_num)
  · exact analytics_clamp_behavior.2.2.2.2.2.2.2.2.2 (-1) .production (by norm_num)

/-- Claim C5 (counterexample): `reactionTimeMs: -5` is clamped to 0 with
`valid := true` but the warnings list is empty, contradicting the claimed
non-empty warnings list for every clamped analytics field. -/
theorem analytics_clamp_silent_for_magnitudes :
    validateEvent (perfEvt "reactionTimeMs" (.num (.fin (-5)))) .production =
      .ok ⟨true, some (perfEvt "reactionTimeMs" (.num (.fin 0))), [], []⟩ := by
  rfl

/-- Claim C7 (amended): `validateSaveGameState` itself accepts exactly when
the blob is present, its serialized size is within the ~1MB blob ceiling
and the schema version passes — but the global ~64KB whole-event ceiling in
`validateEvent` is checked first, so any event (including SAVE_GAME_STATE)
whose total serialized size exceeds ~64KB is rejected before the per-kind
1MB check can run. -/
theorem saveGameState_size_ceilings :
    (∀ (e : JSValue) (mode : ValidationMode),
      (validateSaveGameState e mode).valid = true ↔
        (e.hasField "stateBlob" = true ∧
         estimateSize (e.getField "stateBlob") ≤ MAX_STATE_BLOB_SIZE ∧
         schemaVersionOk (e.getField "schemaVersion") = true)) ∧
    (∀ (e : JSValue) (mode : ValidationMode) (t : String),
      e.typeofObject = true → e ≠ .null → e.getField "type" = .str t →
      MAX_EVENT_SIZE < estimateSize e →
      validateEvent e mode =
        .ok ⟨false, none,
          ["Event exceeds size limit (" ++ toString (estimateSize e) ++ " > " ++
           toString MAX_EVENT_SIZE ++ ")"], []⟩) := by
  constructor
  · intro e mode
    by_cases hb : e.hasField "stateBlob" = true
    · by_cases hsz : estimateSize (e.getField "stateBlob") ≤ MAX_STATE_BLOB_SIZE
      · by_cases hsv : schemaVersionOk (e.getField "schemaVersion") = true <;>
          simp [validateSaveGameState, hb, Nat.not_lt_of_le hsz, hsz, hsv]
      · push_neg at hsz
        by_cases hsv : schemaVersionOk (e.getField "schemaVersion") = true <;>
          simp [validateSaveGameState, hb, hsz, Nat.not_le_of_lt hsz, hsv]
    · by_cases hsv : schemaVersionOk (e.getField "schemaVersion") = true <;>
        simp [validateSaveGameState, hb, hsv]
  · intro e mode t hobj hnull htype hsz
    have hm : (match e with | JSValue.null => true | _ => false) = false := by
      cases e with
      | null => exact absurd rfl hnull
      | undef => rfl
      | bool b => rfl
      | num n => rfl
      | str s => rfl
      | arr es => rfl
      | obj fs => rfl
    simp [validateEvent, hobj, hm, htype, hsz, Nat.not_le_of_lt hsz]

/-- Closed instance of `saveGameState_size_ceilings`: a small well-formed
`SAVE_GAME_STATE` event passes the per-kind validator. -/
theorem saveGameState_size_ceilings_witness :
    (validateSaveGameState
      (.obj [("type", .str "SAVE_GAME_STATE"), ("stateBlob", .str "b"),
             ("schemaVersion", .num (.fin 1))]) .production).valid = true := by
  exact (saveGameState_size_ceilings.1
    (.obj [("type", .str "SAVE_GAME_STATE"), ("stateBlob", .str "b"),
           ("schemaVersion", .num (.fin 1))]) .production).mpr
    ⟨by decide, by decide, by decide⟩

/-- Claim C7 (counterexample): a structurally valid `SAVE_GAME_STATE` event
whose blob serializes to 114,685 bytes — under the ~1MB blob ceiling — is
accepted by the per-kind validator but rejected by `validateEvent` for
exceeding the ~64KB whole-event ceiling. -/
theorem saveGameState_blob_under_1MB_rejected :
    estimateSize (blowup 14) ≤ MAX_STATE_BLOB_SIZE ∧
    validateSaveGameState bigSaveEvt .production = ⟨true, some bigSaveEvt, [], []⟩ ∧
    validateEvent bigSaveEvt .production =
      .ok ⟨false, none, ["Event exceeds size limit (114742 > 65536)"], []⟩ := by
  refine ⟨by decide, by rfl, by rfl⟩

end GamesSdk
